import Mathlib

/-!
Verification of the `ainotemate` Streamlit application (`src/app.py`): a PDF
question-answering tool.  The app has three helper functions and a session-state
driven UI:

* `extract_text_from_pdf` — reads a PDF with `pypdf`, concatenates the truthy
  page texts, and on any exception shows an error and returns `""`.
* `ask_question_to_gemini` — short-circuits on whitespace-only document text,
  otherwise issues one `generate_content` call; returns the trimmed response
  text, an empty-answer sentinel, or (on exception) a failure sentinel plus an
  error message.
* `export_answers_to_pdf` — renders a title cell followed by one
  `Q{n}: …\nA{n}: …\n` multi-cell per ledger record (with `N/A` placeholders
  for missing dict keys) and writes the document to a fresh temporary file.
* the Streamlit script body — session state `saved_answers` / `last_answer` /
  `last_question`, with Get-Answer, Save, Clear and Export handlers.

External effects (the pypdf reader, the Gemini endpoint, the temp-file
system) are passed in as explicit oracle arguments; everything else is the
source logic translated line by line.
-/

namespace AINotemate

/-! ## Sentinel strings (verbatim from `src/app.py`) -/

/-- Returned by `ask_question_to_gemini` when the document text is
whitespace-only (app.py line 64). -/
def emptyContentSentinel : String :=
  "PDF content is empty or could not be extracted. Cannot ask questions."

/-- Returned when the model call succeeds but `response.text` is falsy
(app.py line 87). -/
def emptyAnswerSentinel : String :=
  "Gemini returned an empty answer. Please try a different question or PDF content."

/-- Returned when the model call raises (app.py line 91). -/
def failureSentinel : String :=
  "Could not get an answer from the AI. Please check your API key, model name, internet connection, or try again later."

/-- The substring tested by the save-button guard
(`"Could not get an answer" not in st.session_state.last_answer`,
app.py line 151). -/
def failNeedle : String := "Could not get an answer"

/-- Python's `str.strip()`: drop leading and trailing whitespace.  Modelled
directly on the character list so that concrete instances evaluate. -/
def pyStrip (s : String) : String :=
  ⟨((s.data.dropWhile Char.isWhitespace).reverse.dropWhile Char.isWhitespace).reverse⟩

/-- Helper for the substring test: `needle` is a prefix of some suffix. -/
def strContainsAux (needle : List Char) : List Char → Bool
  | [] => needle.isEmpty
  | c :: rest => needle.isPrefixOf (c :: rest) || strContainsAux needle rest

/-- Python's `needle in haystack` substring test on strings. -/
def strContains (needle haystack : String) : Bool :=
  strContainsAux needle.data haystack.data

/-! ## Text Extractor (`extract_text_from_pdf`, app.py lines 41-56) -/

/-- Result of `extract_text_from_pdf`: the returned text plus the Streamlit
error messages surfaced on the way. -/
structure ExtractOutcome where
  text : String
  alerts : List String
deriving Repr, DecidableEq

/-- `extract_text_from_pdf`.  The pypdf interaction is the oracle argument:
either the list of per-page `page.extract_text()` results (`none` models
Python `None`) or an exception message.  The loop appends only truthy page
texts; the `except` branch shows an error and returns `""`. -/
def extract_text_from_pdf (readResult : Except String (List (Option String))) :
    ExtractOutcome :=
  match readResult with
  | .ok pages =>
      { text := pages.foldl
          (fun acc pageText =>
            match pageText with
            | some t => if t ≠ "" then acc ++ t else acc
            | none => acc) ""
        alerts := [] }
  | .error e =>
      { text := ""
        alerts := ["Error extracting text from PDF: " ++ e] }

/-! ## Answer Service Client (`ask_question_to_gemini`, app.py lines 58-91) -/

/-- Result of `ask_question_to_gemini`: the returned answer string, the number
of `generate_content` calls issued, and the Streamlit error messages
surfaced. -/
structure AskOutcome where
  answer : String
  calls : Nat
  alerts : List String
deriving Repr, DecidableEq

/-- The prompt f-string of app.py line 79. -/
def gemini_prompt (text question : String) : String :=
  "PDF Content:\n" ++ text ++ "\n\nQuestion: " ++ question ++ "\nAnswer:"

/-- `ask_question_to_gemini`.  The hosted model is the oracle argument
`generate_content`, mapping a prompt to either an exception message or the
`response.text` field (`none` models Python `None`).  Mirrors the source:
whitespace-only text short-circuits before any call; a truthy response text is
returned trimmed; a falsy one yields the empty-answer sentinel; an exception
yields an error message and the failure sentinel.  Exactly one call is made
whenever the short-circuit is not taken. -/
def ask_question_to_gemini (text question : String)
    (generate_content : String → Except String (Option String)) : AskOutcome :=
  if pyStrip text = "" then
    { answer := emptyContentSentinel, calls := 0, alerts := [] }
  else
    match generate_content (gemini_prompt text question) with
    | .ok (some rtext) =>
        if rtext ≠ "" then
          { answer := pyStrip rtext, calls := 1, alerts := [] }
        else
          { answer := emptyAnswerSentinel, calls := 1, alerts := [] }
    | .ok none =>
        { answer := emptyAnswerSentinel, calls := 1, alerts := [] }
    | .error e =>
        { answer := failureSentinel
          calls := 1
          alerts := ["Error calling Gemini API: " ++ e ++ ". This might be due to an invalid model name, API key, network issues, or exceeding rate limits."] }

/-! ## Document Exporter (`export_answers_to_pdf`, app.py lines 93-116) -/

/-- A ledger record: the Python dict `{"question": …, "answer": …}` whose keys
may be absent (`none`), since the exporter defends against that with
`dict.get`. -/
structure QARecord where
  question : Option String
  answer : Option String
deriving Repr, DecidableEq

/-- The title cell text (app.py line 103). -/
def exportTitle : String := "Saved Q&A from Notes to PDF"

/-- The `multi_cell` text for record `idx` (0-based, as produced by
`enumerate`): the f-string of app.py line 111, with the `dict.get` placeholders
of lines 109-110. -/
def qaCellText (idx : Nat) (qa : QARecord) : String :=
  "Q" ++ toString (idx + 1) ++ ": " ++ qa.question.getD "N/A Question" ++
    "\nA" ++ toString (idx + 1) ++ ": " ++ qa.answer.getD "N/A Answer" ++ "\n"

/-- The generated PDF document, as the ordered list of texts written into it
(the title `cell` followed by one `multi_cell` per record). -/
structure PDFDoc where
  cells : List String
deriving Repr, DecidableEq

/-- `export_answers_to_pdf`, restricted to the document content it renders:
a title cell, then `Q{idx+1}: …\nA{idx+1}: …\n` for each record in ledger
order. -/
def export_answers_to_pdf (answers : List QARecord) : PDFDoc :=
  { cells := exportTitle :: answers.enum.map (fun p => qaCellText p.1 p.2) }

/-- The full text of the exported document (concatenation of its cells). -/
def exportedText (answers : List QARecord) : String :=
  String.join (export_answers_to_pdf answers).cells

/-- The temp-file side of `export_answers_to_pdf`: `NamedTemporaryFile`
creates `freshName` in the temp directory `fs` and the function returns that
path (app.py lines 114-116). -/
def export_answers_to_pdf_file (fs : List String) (freshName : String) :
    String × List String :=
  (freshName, freshName :: fs)

/-- `os.remove` on the model file system. -/
def os_remove (path : String) (fs : List String) : List String :=
  fs.erase path

/-- The "Export All as PDF" click handler (app.py lines 174-183): export the
ledger to a fresh temp file, stream it through the download button, then
`os.remove` it.  Returns the rendered document and the temp directory after
the handler finishes. -/
def export_all_handler (saved : List QARecord) (fs : List String)
    (freshName : String) : PDFDoc × List String :=
  let doc := export_answers_to_pdf saved
  let pathAndFs := export_answers_to_pdf_file fs freshName
  (doc, os_remove pathAndFs.1 pathAndFs.2)

/-! ## Session state machine (app.py lines 124-172) -/

/-- `st.session_state`: the saved ledger plus the pending answer/question pair
(`none` models the key being absent). -/
structure SessionState where
  saved_answers : List QARecord
  last_answer : Option String
  last_question : Option String
deriving Repr, DecidableEq

/-- Initial session state (app.py lines 125-126; `last_answer` and
`last_question` keys do not exist yet). -/
def initState : SessionState :=
  { saved_answers := [], last_answer := none, last_question := none }

/-- The guard under which the "Save this Answer" button is rendered
(app.py lines 148-152): `last_answer` exists and is truthy, and does not
contain the failure needle. -/
def save_offered (s : SessionState) : Bool :=
  match s.last_answer with
  | some a => (a != "") && !(strContains failNeedle a)
  | none => false

/-- One user interaction with the widgets that touch session state. -/
inductive Action where
  | ask (pdf_text question : String)
      (generate_content : String → Except String (Option String))
  | save
  | clear

/-- One Streamlit rerun handling the given interaction.

* `ask`: reachable only when the extracted text is truthy (line 135) and the
  question is truthy (line 140); stores the Gemini answer and the question
  (lines 142-144).
* `save`: reachable only under `save_offered`; appends
  `{question: last_question, answer: last_answer}` (lines 152-157).
* `clear`: reachable only when the ledger is nonempty (line 162); resets it
  (lines 170-171). -/
def step (s : SessionState) : Action → SessionState
  | .ask pdf_text question generate_content =>
      if pdf_text ≠ "" ∧ question ≠ "" then
        { s with
          last_answer :=
            some (ask_question_to_gemini pdf_text question generate_content).answer
          last_question := some question }
      else s
  | .save =>
      if save_offered s then
        match s.last_answer, s.last_question with
        | some a, some q =>
            { s with saved_answers := s.saved_answers ++ [⟨some q, some a⟩] }
        | _, _ => s
      else s
  | .clear =>
      if s.saved_answers.isEmpty then s else { s with saved_answers := [] }

/-- Session states reachable from `initState` by user interactions. -/
inductive Reachable : SessionState → Prop
  | init : Reachable initState
  | next {s : SessionState} (act : Action) : Reachable s → Reachable (step s act)

/-! ## Substring-test lemmas -/

lemma strContainsAux_eq_true_iff (needle l : List Char) :
    strContainsAux needle l = true ↔ needle <:+: l := by
  induction l with
  | nil => simp [strContainsAux, List.infix_nil]
  | cons c rest ih =>
      simp [strContainsAux, List.isPrefixOf_iff_prefix, ih, List.infix_cons_iff]

lemma strContains_iff (needle haystack : String) :
    strContains needle haystack = true ↔ needle.data <:+: haystack.data :=
  strContainsAux_eq_true_iff _ _

lemma strContains_append_middle (u t v : String) :
    strContains t (u ++ t ++ v) = true := by
  rw [strContains_iff]
  simp [String.data_append]

/-! ## Claim C2: empty document text short-circuits without a model call -/

/-- C2: for every question, when the document text is empty or
whitespace-only, `ask_question_to_gemini` returns the fixed empty-content
sentinel, issues zero `generate_content` calls, and surfaces no error. -/
theorem ask_empty_text_no_call (text question : String)
    (generate_content : String → Except String (Option String))
    (h : pyStrip text = "") :
    ask_question_to_gemini text question generate_content =
      { answer := emptyContentSentinel, calls := 0, alerts := [] } := by
  simp [ask_question_to_gemini, h]

/-- Witness for C2 at whitespace-only text, with an oracle that would fail if
it were ever consulted. -/
theorem ask_empty_text_no_call_witness :
    pyStrip "  " = "" ∧
      ask_question_to_gemini "  " "What is X?" (fun _ => .error "network down") =
        { answer := emptyContentSentinel, calls := 0, alerts := [] } :=
  ⟨by decide,
   ask_empty_text_no_call "  " "What is X?" (fun _ => .error "network down") (by decide)⟩

/-! ## Claim C4: any model-call error yields the failure sentinel, one attempt -/

/-- C4: with non-empty document text, if the single `generate_content` call
raises, `ask_question_to_gemini` catches it, surfaces an error message, and
returns the fixed failure sentinel; exactly one call is attempted. -/
theorem ask_failure_single_attempt (text question e : String)
    (generate_content : String → Except String (Option String))
    (htext : pyStrip text ≠ "")
    (hcall : generate_content (gemini_prompt text question) = .error e) :
    (ask_question_to_gemini text question generate_content).answer = failureSentinel ∧
    (ask_question_to_gemini text question generate_content).calls = 1 ∧
    (ask_question_to_gemini text question generate_content).alerts ≠ [] := by
  simp [ask_question_to_gemini, htext, hcall]

/-- Witness for C4 at a concrete quota error. -/
theorem ask_failure_single_attempt_witness :
    (ask_question_to_gemini "Doc text." "What is X?"
        (fun _ => .error "429 quota exceeded")).answer = failureSentinel ∧
    (ask_question_to_gemini "Doc text." "What is X?"
        (fun _ => .error "429 quota exceeded")).calls = 1 ∧
    (ask_question_to_gemini "Doc text." "What is X?"
        (fun _ => .error "429 quota exceeded")).alerts ≠ [] :=
  ask_failure_single_attempt "Doc text." "What is X?" "429 quota exceeded"
    (fun _ => .error "429 quota exceeded") (by decide) rfl

/-! ## Claim C5: successful calls return trimmed text or the empty sentinel -/

/-- C5: with non-empty document text, on a successful call whose response text
is non-empty the trimmed response text is returned, and on a successful call
whose response text is empty the fixed empty-answer sentinel is returned. -/
theorem ask_success_trim_or_empty_sentinel (text question rtext : String)
    (generate_content : String → Except String (Option String))
    (htext : pyStrip text ≠ "")
    (hcall : generate_content (gemini_prompt text question) = .ok (some rtext)) :
    (rtext ≠ "" →
      (ask_question_to_gemini text question generate_content).answer = pyStrip rtext) ∧
    (rtext = "" →
      (ask_question_to_gemini text question generate_content).answer =
        emptyAnswerSentinel) := by
  constructor <;> intro hr <;> simp [ask_question_to_gemini, htext, hcall, hr]

/-- Witness for C5 at a padded response text. -/
theorem ask_success_trim_or_empty_sentinel_witness :
    (ask_question_to_gemini "Doc text." "What is X?"
        (fun _ => .ok (some " X is Y. "))).answer = pyStrip " X is Y. " :=
  (ask_success_trim_or_empty_sentinel "Doc text." "What is X?" " X is Y. "
      (fun _ => .ok (some " X is Y. ")) (by decide) rfl).1 (by decide)

/-! ## Claim C8: extraction errors are caught and yield the empty string -/

/-- C8: if reading the PDF raises any exception, `extract_text_from_pdf`
returns the empty string and surfaces a non-fatal message instead of
propagating the exception (the embedding is a total function: it produces a
result for every oracle outcome). -/
theorem extract_error_caught (readResult : Except String (List (Option String)))
    (e : String) (h : readResult = .error e) :
    (extract_text_from_pdf readResult).text = "" ∧
    (extract_text_from_pdf readResult).alerts ≠ [] := by
  subst h
  simp [extract_text_from_pdf]

/-- Witness for C8 at a concrete malformed-document error. -/
theorem extract_error_caught_witness :
    (extract_text_from_pdf (.error "EOF marker not found")).text = "" ∧
    (extract_text_from_pdf (.error "EOF marker not found")).alerts ≠ [] :=
  extract_error_caught (.error "EOF marker not found") "EOF marker not found" rfl

/-! ## Claim C1: exported document structure -/

/-- C1: for every ledger of `N` records the exported document is the fixed
title cell followed by exactly `N` numbered blocks, the `k`-th block being
`Q{k+1}: question` then `A{k+1}: answer` of the `k`-th record in insertion
order; in particular, for the one-record example ledger the exported text
contains `Q1: What is X?` and `A1: X is Y.`. -/
theorem export_title_and_numbered_blocks (answers : List QARecord) :
    ((export_answers_to_pdf answers).cells.length = answers.length + 1) ∧
    ((export_answers_to_pdf answers).cells[0]? = some exportTitle) ∧
    (∀ k, k < answers.length →
      (export_answers_to_pdf answers).cells[k + 1]? =
        some ("Q" ++ toString (k + 1) ++ ": " ++
          (answers[k]?.getD ⟨none, none⟩).question.getD "N/A Question" ++
          "\nA" ++ toString (k + 1) ++ ": " ++
          (answers[k]?.getD ⟨none, none⟩).answer.getD "N/A Answer" ++ "\n")) ∧
    (strContains "Q1: What is X?"
      (exportedText [⟨some "What is X?", some "X is Y."⟩]) = true) ∧
    (strContains "A1: X is Y."
      (exportedText [⟨some "What is X?", some "X is Y."⟩]) = true) := by
  refine ⟨?_, ?_, ?_, by decide, by decide⟩
  · simp [export_answers_to_pdf]
  · simp [export_answers_to_pdf]
  · intro k h
    simp [export_answers_to_pdf, List.getElem?_map, List.getElem?_enum,
      List.getElem?_eq_getElem h, qaCellText]

/-- Witness for C1 at the spec's literal one-record example. -/
theorem export_title_and_numbered_blocks_witness :
    (export_answers_to_pdf [⟨some "What is X?", some "X is Y."⟩]).cells[1]? =
      some "Q1: What is X?\nA1: X is Y.\n" := by
  have h := (export_title_and_numbered_blocks
    [⟨some "What is X?", some "X is Y."⟩]).2.2.1 0 (by decide)
  exact h

/-! ## Claim C7: missing record keys export as placeholders -/

/-- C7: for every ledger and every record in it, export does not fail and the
record's block substitutes `N/A Question` for a missing question key and
`N/A Answer` for a missing answer key. -/
theorem export_missing_key_placeholder (answers : List QARecord) (k : Nat)
    (h : k < answers.length) :
    ((answers[k]?.getD ⟨none, none⟩).question = none →
      strContains "N/A Question"
        (((export_answers_to_pdf answers).cells[k + 1]?).getD "") = true) ∧
    ((answers[k]?.getD ⟨none, none⟩).answer = none →
      strContains "N/A Answer"
        (((export_answers_to_pdf answers).cells[k + 1]?).getD "") = true) := by
  have hcell : (export_answers_to_pdf answers).cells[k + 1]? =
      some (qaCellText k (answers[k]?.getD ⟨none, none⟩)) := by
    simp [export_answers_to_pdf, List.getElem?_map, List.getElem?_enum,
      List.getElem?_eq_getElem h]
  rw [hcell]
  constructor
  · intro hq
    rw [strContains_iff]
    refine ⟨("Q" ++ toString (k + 1) ++ ": ").data,
      ("\nA" ++ toString (k + 1) ++ ": " ++
        (answers[k]?.getD ⟨none, none⟩).answer.getD "N/A Answer" ++ "\n").data, ?_⟩
    simp [qaCellText, hq, String.data_append]
  · intro ha
    rw [strContains_iff]
    refine ⟨("Q" ++ toString (k + 1) ++ ": " ++
        (answers[k]?.getD ⟨none, none⟩).question.getD "N/A Question" ++
        "\nA" ++ toString (k + 1) ++ ": ").data, "\n".data, ?_⟩
    simp [qaCellText, ha, String.data_append]

/-- Witness for C7 at a ledger whose only record lacks both keys. -/
theorem export_missing_key_placeholder_witness :
    strContains "N/A Question"
      (((export_answers_to_pdf [⟨none, none⟩]).cells[0 + 1]?).getD "") = true ∧
    strContains "N/A Answer"
      (((export_answers_to_pdf [⟨none, none⟩]).cells[0 + 1]?).getD "") = true := by
  have h := export_missing_key_placeholder [⟨none, none⟩] 0 (by decide)
  exact ⟨h.1 rfl, h.2 rfl⟩

/-! ## Claim C9: the exported temporary file does not outlive the handler -/

/-- C9: the Export-All click handler creates a fresh temporary file, streams
it, and removes it before the interaction completes: afterwards the temp
directory is exactly what it was, and the fresh path is gone. -/
theorem export_temp_file_removed (saved : List QARecord) (fs : List String)
    (freshName : String) (h : freshName ∉ fs) :
    (export_all_handler saved fs freshName).2 = fs ∧
    freshName ∉ (export_all_handler saved fs freshName).2 := by
  have heq : (export_all_handler saved fs freshName).2 = fs := by
    simp [export_all_handler, export_answers_to_pdf_file, os_remove]
  refine ⟨heq, ?_⟩
  rw [heq]
  exact h

/-- Witness for C9 at a concrete temp directory. -/
theorem export_temp_file_removed_witness :
    (export_all_handler [] ["other.tmp"] "qa1234.pdf").2 = ["other.tmp"] ∧
    "qa1234.pdf" ∉ (export_all_handler [] ["other.tmp"] "qa1234.pdf").2 :=
  export_temp_file_removed [] ["other.tmp"] "qa1234.pdf" (by decide)

/-! ## Ledger invariant machinery -/

/-- A record whose answer does not contain the save-guard needle.  This is
the invariant the save button enforces; it is strictly stronger than merely
not being the failure sentinel. -/
def noFailureRecord (qa : QARecord) : Prop :=
  ∀ a, qa.answer = some a → strContains failNeedle a = false

lemma step_preserves_noFailure {s : SessionState} (act : Action)
    (ih : ∀ qa ∈ s.saved_answers, noFailureRecord qa) :
    ∀ qa ∈ (step s act).saved_answers, noFailureRecord qa := by
  cases act with
  | ask pdf_text question generate_content =>
      by_cases hg : pdf_text ≠ "" ∧ question ≠ ""
      · simpa [step, hg] using ih
      · simpa [step, hg] using ih
  | save =>
      by_cases hoff : save_offered s = true
      · rcases h1 : s.last_answer with _ | a
        · simpa [step, hoff, h1] using ih
        · rcases h2 : s.last_question with _ | q
          · simpa [step, hoff, h1, h2] using ih
          · intro qa hqa
            have hqa2 : qa ∈ s.saved_answers ++ [(⟨some q, some a⟩ : QARecord)] := by
              simpa [step, hoff, h1, h2] using hqa
            rcases List.mem_append.1 hqa2 with hold | hnew
            · exact ih qa hold
            · have hq : qa = ⟨some q, some a⟩ := by simpa using hnew
              subst hq
              intro a2 ha2
              have ha2s : some a = some a2 := ha2
              injection ha2s with ha2e
              subst ha2e
              have hcond := hoff
              simp [save_offered, h1] at hcond
              exact hcond.2
      · simpa [step, hoff] using ih
  | clear =>
      by_cases he : s.saved_answers.isEmpty
      · simpa [step, he] using ih
      · simp [step, he]

lemma reachable_noFailure {s : SessionState} (h : Reachable s) :
    ∀ qa ∈ s.saved_answers, noFailureRecord qa := by
  induction h with
  | init => simp [initState]
  | next act hr ih => exact step_preserves_noFailure act ih

/-! ## Claim C3: the ledger never holds a failure-sentinel answer -/

/-- C3: in every reachable session state, no saved record's answer is the
failure sentinel: the save action is guarded by the substring test on the
pending answer, so a failed-call record is never appended. -/
theorem ledger_never_failure_sentinel (s : SessionState) (h : Reachable s) :
    ∀ qa ∈ s.saved_answers, qa.answer ≠ some failureSentinel := by
  intro qa hqa hcontra
  have hno := reachable_noFailure h qa hqa failureSentinel hcontra
  have htrue : strContains failNeedle failureSentinel = true := by decide
  rw [htrue] at hno
  exact Bool.noConfusion hno

/-- Witness for C3 on a reachable state holding one successfully saved
record. -/
theorem ledger_never_failure_sentinel_witness :
    (QARecord.mk (some "What is X?") (some "X is Y.")).answer ≠ some failureSentinel := by
  have hr : Reachable (step (step initState
      (.ask "Doc text." "What is X?" (fun _ => .ok (some "X is Y.")))) .save) :=
    Reachable.next .save (Reachable.next
      (.ask "Doc text." "What is X?" (fun _ => .ok (some "X is Y."))) Reachable.init)
  exact ledger_never_failure_sentinel _ hr ⟨some "What is X?", some "X is Y."⟩ (by decide)

/-! ## Claim C6: the empty-answer sentinel is still save-eligible -/

/-- C6: when the pending answer is the empty-response sentinel the save
button is still offered — only answers containing the failure needle are
excluded — and saving appends that sentinel record to the ledger, as shown on
a reachable trace. -/
theorem empty_sentinel_still_save_eligible :
    (step initState (.ask "Doc text." "What is X?" (fun _ => .ok (some "")))).last_answer =
        some emptyAnswerSentinel ∧
    save_offered (step initState (.ask "Doc text." "What is X?" (fun _ => .ok (some "")))) =
        true ∧
    (step (step initState (.ask "Doc text." "What is X?" (fun _ => .ok (some "")))) .save
        ).saved_answers = [⟨some "What is X?", some emptyAnswerSentinel⟩] ∧
    Reachable (step (step initState
        (.ask "Doc text." "What is X?" (fun _ => .ok (some "")))) .save) := by
  refine ⟨by decide, by decide, by decide, ?_⟩
  exact Reachable.next .save (Reachable.next
    (.ask "Doc text." "What is X?" (fun _ => .ok (some ""))) Reachable.init)

lemma step_save_eq {s : SessionState} {a q : String}
    (ha : s.last_answer = some a) (hq : s.last_question = some q)
    (hoff : save_offered s = true) :
    step s .save = { s with saved_answers := s.saved_answers ++ [⟨some q, some a⟩] } := by
  simp [step, hoff, ha, hq]

/-! ## Claim C10: save appends exactly one record at the tail -/

/-- C10: under the save guard, saving appends exactly one
`{question, answer}` record at the tail of the ledger, leaves every earlier
record and their order unchanged, keeps the pending pair intact, and is not
idempotent: saving again while the same pending answer is current appends a
duplicate record. -/
theorem save_appends_exactly_one (s : SessionState) (a q : String)
    (ha : s.last_answer = some a) (hq : s.last_question = some q)
    (hoff : save_offered s = true) :
    (step s .save).saved_answers = s.saved_answers ++ [⟨some q, some a⟩] ∧
    (step s .save).last_answer = s.last_answer ∧
    (step s .save).last_question = s.last_question ∧
    (step (step s .save) .save).saved_answers =
      s.saved_answers ++ [⟨some q, some a⟩, ⟨some q, some a⟩] := by
  have h1 := step_save_eq ha hq hoff
  have ha2 : (step s .save).last_answer = some a := by
    rw [h1]
    exact ha
  have hq2 : (step s .save).last_question = some q := by
    rw [h1]
    exact hq
  have hoff2 : save_offered (step s .save) = true := by
    rw [h1]
    simpa [save_offered] using hoff
  have h2 := step_save_eq ha2 hq2 hoff2
  refine ⟨by rw [h1], by rw [h1], by rw [h1], ?_⟩
  rw [h2, h1]
  simp

/-- Witness for C10 at a state holding one prior record and a pending
answer. -/
theorem save_appends_exactly_one_witness :
    (step ⟨[⟨some "Q0", some "A0"⟩], some "A1", some "Q1"⟩ .save).saved_answers =
        [⟨some "Q0", some "A0"⟩] ++ [⟨some "Q1", some "A1"⟩] ∧
    (step ⟨[⟨some "Q0", some "A0"⟩], some "A1", some "Q1"⟩ .save).last_answer =
        (⟨[⟨some "Q0", some "A0"⟩], some "A1", some "Q1"⟩ : SessionState).last_answer ∧
    (step ⟨[⟨some "Q0", some "A0"⟩], some "A1", some "Q1"⟩ .save).last_question =
        (⟨[⟨some "Q0", some "A0"⟩], some "A1", some "Q1"⟩ : SessionState).last_question ∧
    (step (step ⟨[⟨some "Q0", some "A0"⟩], some "A1", some "Q1"⟩ .save) .save
        ).saved_answers =
      [⟨some "Q0", some "A0"⟩] ++ [⟨some "Q1", some "A1"⟩, ⟨some "Q1", some "A1"⟩] :=
  save_appends_exactly_one ⟨[⟨some "Q0", some "A0"⟩], some "A1", some "Q1"⟩ "A1" "Q1"
    rfl rfl (by decide)

end AINotemate
